import Mathlib

/-!
# Dependency-carrying execution policies (thrust/detail/execute_with_dependencies.h)

A shallow embedding of the two policy decorators `execute_with_dependencies` and
`execute_with_allocator_and_dependencies`, of the capture customisation point
`capture_as_dependency`, and of the generic entry point `extract_dependencies`.

Conventions of the embedding.

* A `std::tuple<Ts...>` value is the ordered list of its elements. Its arity is part of its
  C++ type, so no operation of the header changes the length of a stored tuple.
* The element types are template parameters of the header. What they contribute is taken as
  a parameter: the capture overloads they supply (`rule`), the state their move constructor
  leaves behind in the source object (`moved`), and the construction of a non-owning
  `cuda::unique_stream` from a raw stream (`nonowning`).
* A call is embedded with its overload resolution: the value category of an argument (`Cat`)
  and, for `extract_dependencies`, its static type decide which overload runs, and an
  overload whose return type is ill-formed drops out of the candidates.
* A member function that modifies its receiver, or a function that modifies an argument taken
  by reference, returns the new state of that object next to its result.
* A sequence of calls is a list of `Op`; `run` folds it over a policy object and collects what
  the calls hand back. The scan `get_raw_stream` of the backend is a parameter of the calls
  and is modelled from the spec where a claim assumes how it behaves.
-/

namespace thrust.detail

/-- A value that can sit in a dependency tuple: an object of one of the (opaque) dependency
types, or a `std::tuple` of such values. -/
inductive Dep (α : Type) where
  | atom : α → Dep α
  | tuple : List (Dep α) → Dep α

/-- Value category of an argument expression; it decides which overload a call selects.
`lvalue` is a modifiable (non-const) lvalue, `rvalue` an expiring value. -/
inductive Cat where
  | lvalue
  | rvalue
  deriving DecidableEq, Repr

/-- The capture overloads that the dependency types supply in their own namespaces, where
argument-dependent lookup finds them: what such an overload yields for an object passed with
the given value category, and `none` when the type of the object supplies no viable
overload. The dependency types are taken to live outside `thrust::detail`, so that lookup
through their namespaces does not reach the two overloads of this header. -/
abbrev CaptureRule (α : Type) := Cat → α → Option α

/-- The rule when no dependency type supplies an overload: every object is left to the
forwarding default (`// Default implementation: universal forwarding.`, lines 45-48). -/
def default_rule {α : Type} : CaptureRule α := fun _ _ => none

mutual
/-- The state in which move construction leaves its source: every element of a tuple is
moved from individually, an object of a dependency type as its move constructor says. -/
def moved_from {α : Type} (moved : α → α) : Dep α → Dep α
  | .atom a => .atom (moved a)
  | .tuple ds => .tuple (moved_from_each moved ds)
/-- Element-wise `moved_from` over the elements of a tuple. -/
def moved_from_each {α : Type} (moved : α → α) : List (Dep α) → List (Dep α)
  | [] => []
  | d :: ds => moved_from moved d :: moved_from_each moved ds
end

/-- The function object `capture_as_dependency_fn` (lines 38-43), applied to an element of an
lvalue tuple, which is an lvalue. Its call `capture_as_dependency(THRUST_FWD(dependency))`
stands before every declaration of `capture_as_dependency` in the header, so only the
overloads found by argument-dependent lookup are candidates: neither the forwarding default
of lines 45-48 nor the tuple overload of lines 50-54 is. For an object whose type supplies
no overload, and for a nested `std::tuple`, the call is ill-formed (`none`). -/
def capture_as_dependency_fn {α : Type} (rule : CaptureRule α) : Dep α → Option (Dep α)
  | .atom a => (rule .lvalue a).map Dep.atom
  | .tuple _ => none

/-- Modelled from the spec: `tuple_for_each(t, f)` of thrust/detail/tuple_algorithms.h, which
is not part of this header. The spec says capture of a sequence "yields a sequence of the
same length where each element has been captured independently": the function object is
applied to every element in order and the results form the sequence returned. The
expression is ill-formed (`none`) as soon as the function object cannot be called on one
element. -/
def tuple_for_each {α : Type} (f : Dep α → Option (Dep α)) :
    List (Dep α) → Option (List (Dep α))
  | [] => some []
  | d :: ds =>
      match f d, tuple_for_each f ds with
      | some e, some es => some (e :: es)
      | _, _ => none

/-- The overload set of a call `capture_as_dependency(x)` made after the declarations of lines
45-54, as the calls in `rebind_after` are.
* An object of a dependency type: the overload its type supplies, the forwarding default of
  lines 45-48 when it supplies none.
* A modifiable lvalue `std::tuple<...>&`: the tuple overload of lines 50-54, which is more
  specialised than the forwarding one. Its return type is the type of
  `tuple_for_each(dependencies, capture_as_dependency_fn{})`; when that expression is
  ill-formed the overload drops out and the forwarding default returns the tuple as it is.
* An rvalue tuple: `std::tuple<...>&` cannot bind to it, so the forwarding default is the
  only viable overload and the tuple is returned as it is. -/
def capture_as_dependency {α : Type} (rule : CaptureRule α) (c : Cat) : Dep α → Dep α
  | .atom a => .atom ((rule c a).getD a)
  | .tuple ds =>
      match c with
      | .lvalue => .tuple ((tuple_for_each (capture_as_dependency_fn rule) ds).getD ds)
      | .rvalue => .tuple ds

/-- An argument expression of a call: its value category and its value. -/
structure Arg (α : Type) where
  cat : Cat
  val : Dep α

/-- The pack expansion `capture_as_dependency(THRUST_FWD(udependencies))...` of lines 122 and
235: every argument is captured on its own, with its own value category. -/
def capture_pack {α : Type} (rule : CaptureRule α) (args : List (Arg α)) : List (Dep α) :=
  args.map (fun a => capture_as_dependency rule a.cat a.val)

/-- The elements of a `std::tuple` value, as handed to a tuple constructor. An object that is
not a tuple counts as a single element; the callers below only pass tuples. -/
def Dep.elements {α : Type} : Dep α → List (Dep α)
  | .tuple ds => ds
  | .atom a => [.atom a]

/-- The call `std::make_tuple(x)`: the one-element tuple. -/
def make_tuple {α : Type} (x : Dep α) : List (Dep α) := [x]

/-- The call `std::tuple_cat(t, u)`: the elements of `t` followed by those of `u`. -/
def tuple_cat {α : Type} (t u : List (Dep α)) : List (Dep α) := t ++ u

/-- The struct `execute_with_dependencies<BaseSystem, Dependencies...>` (lines 56-156): the
base sub-object `super_t` and the private member `dependencies`. -/
structure execute_with_dependencies (σ α : Type) where
  base : σ
  dependencies : List (Dep α)

namespace execute_with_dependencies

variable {σ α S : Type}

/-- Constructors of lines 66-77: a base policy and individually listed dependencies,
`super_t(super), dependencies(THRUST_FWD(deps)...)`. -/
def ctor_super_pack (super : σ) (deps : List (Dep α)) : execute_with_dependencies σ α :=
  { base := super, dependencies := deps }

/-- Constructor of lines 79-84: individually listed dependencies, the base sub-object
default-initialised. -/
def ctor_pack [Inhabited σ] (deps : List (Dep α)) : execute_with_dependencies σ α :=
  { base := default, dependencies := deps }

/-- Constructor of lines 86-91: a base policy and one pre-built tuple,
`super_t(super), dependencies(std::move(deps))`. -/
def ctor_super_tuple (super : σ) (deps : Dep α) : execute_with_dependencies σ α :=
  { base := super, dependencies := deps.elements }

/-- Constructor of lines 93-98: one pre-built tuple, `dependencies(std::move(deps))`. -/
def ctor_tuple [Inhabited σ] (deps : Dep α) : execute_with_dependencies σ α :=
  { base := default, dependencies := deps.elements }

/-- Member `on(cudaStream_t stream) &&` (lines 100-114), named `on_stream` here because
`on` is reserved. It is rvalue-qualified and moves `dependencies` out of the receiver: the
result is the new policy together with the receiver as the call leaves it. -/
def on_stream [Inhabited σ] (nonowning : S → α) (moved : α → α)
    (self : execute_with_dependencies σ α) (stream : S) :
    execute_with_dependencies σ α × execute_with_dependencies σ α :=
  (ctor_tuple (.tuple (tuple_cat (make_tuple (.atom (nonowning stream))) self.dependencies)),
   { self with dependencies := moved_from_each moved self.dependencies })

/-- Member `rebind_after(UDependencies&& ...udependencies) const` (lines 116-123), the
variadic overload. The member is `const`: the receiver is read-only and is returned as it
was. -/
def rebind_after_pack [Inhabited σ] (rule : CaptureRule α)
    (self : execute_with_dependencies σ α) (udependencies : List (Arg α)) :
    execute_with_dependencies σ α × execute_with_dependencies σ α :=
  (ctor_pack (capture_pack rule udependencies), self)

/-- Member `rebind_after(std::tuple<UDependencies...>& udependencies) const`
(lines 125-132). -/
def rebind_after_lvalue_tuple [Inhabited σ] (rule : CaptureRule α)
    (self : execute_with_dependencies σ α) (udependencies : List (Dep α)) :
    execute_with_dependencies σ α × execute_with_dependencies σ α :=
  (ctor_tuple (capture_as_dependency rule .lvalue (.tuple udependencies)), self)

/-- Member `rebind_after(std::tuple<UDependencies...>&& udependencies) const`
(lines 133-139). -/
def rebind_after_rvalue_tuple [Inhabited σ] (rule : CaptureRule α)
    (self : execute_with_dependencies σ α) (udependencies : List (Dep α)) :
    execute_with_dependencies σ α × execute_with_dependencies σ α :=
  (ctor_tuple (capture_as_dependency rule .rvalue (.tuple udependencies)), self)

/-- The call `p.rebind_after(args...)` (lines 116-139), with its overload resolution. For a
single argument that is a modifiable lvalue tuple the overload of lines 125-132 is more
specialised than the variadic one and is selected; for a single rvalue tuple the overload of
lines 133-139 is; every other argument list goes to the variadic overload of lines
116-123. -/
def rebind_after [Inhabited σ] (rule : CaptureRule α)
    (self : execute_with_dependencies σ α) (args : List (Arg α)) :
    execute_with_dependencies σ α × execute_with_dependencies σ α :=
  match args with
  | [⟨.lvalue, .tuple udependencies⟩] => rebind_after_lvalue_tuple rule self udependencies
  | [⟨.rvalue, .tuple udependencies⟩] => rebind_after_rvalue_tuple rule self udependencies
  | _ => rebind_after_pack rule self args

/-- Friend `dispatch_get_raw_stream` (lines 141-148); `get_raw_stream` is the scan of the
backend over a dependency tuple, which this header does not define. -/
def dispatch_get_raw_stream (get_raw_stream : List (Dep α) → S)
    (system : execute_with_dependencies σ α) : S :=
  get_raw_stream system.dependencies

/-- Friend `dispatch_extract_dependencies` (lines 150-155): the returned tuple is move
constructed from `system.dependencies`, which keeps its arity and is left moved from. The
result is the returned tuple together with `system` as the call leaves it. -/
def dispatch_extract_dependencies (moved : α → α) (system : execute_with_dependencies σ α) :
    List (Dep α) × execute_with_dependencies σ α :=
  (system.dependencies,
   { system with dependencies := moved_from_each moved system.dependencies })

end execute_with_dependencies

/-- The struct `execute_with_allocator_and_dependencies<Allocator, BaseSystem,
Dependencies...>` (lines 158-274): the base sub-object and the private members
`dependencies` and `alloc`. -/
structure execute_with_allocator_and_dependencies (A σ α : Type) where
  base : σ
  dependencies : List (Dep α)
  alloc : A

namespace execute_with_allocator_and_dependencies

variable {A σ α S : Type}

/-- Constructor of lines 185-190: base policy, allocator, individually listed
dependencies. -/
def ctor_super_pack (super : σ) (a : A) (deps : List (Dep α)) :
    execute_with_allocator_and_dependencies A σ α :=
  { base := super, dependencies := deps, alloc := a }

/-- Constructor of lines 192-197: allocator and individually listed dependencies. -/
def ctor_pack [Inhabited σ] (a : A) (deps : List (Dep α)) :
    execute_with_allocator_and_dependencies A σ α :=
  { base := default, dependencies := deps, alloc := a }

/-- Constructor of lines 199-204: base policy, allocator and one pre-built tuple. -/
def ctor_super_tuple (super : σ) (a : A) (deps : Dep α) :
    execute_with_allocator_and_dependencies A σ α :=
  { base := super, dependencies := deps.elements, alloc := a }

/-- Constructor of lines 206-211: allocator and one pre-built tuple. -/
def ctor_tuple [Inhabited σ] (a : A) (deps : Dep α) :
    execute_with_allocator_and_dependencies A σ α :=
  { base := default, dependencies := deps.elements, alloc := a }

/-- Member `on(cudaStream_t stream) &&` (lines 213-227), named `on_stream` here: `alloc` is
copied into the new policy, `dependencies` is moved out of the receiver. -/
def on_stream [Inhabited σ] (nonowning : S → α) (moved : α → α)
    (self : execute_with_allocator_and_dependencies A σ α) (stream : S) :
    execute_with_allocator_and_dependencies A σ α ×
      execute_with_allocator_and_dependencies A σ α :=
  (ctor_tuple self.alloc
     (.tuple (tuple_cat (make_tuple (.atom (nonowning stream))) self.dependencies)),
   { self with dependencies := moved_from_each moved self.dependencies })

/-- Member `rebind_after(UDependencies&& ...udependencies) const` (lines 229-236), the
variadic overload. -/
def rebind_after_pack [Inhabited σ] (rule : CaptureRule α)
    (self : execute_with_allocator_and_dependencies A σ α) (udependencies : List (Arg α)) :
    execute_with_allocator_and_dependencies A σ α ×
      execute_with_allocator_and_dependencies A σ α :=
  (ctor_pack self.alloc (capture_pack rule udependencies), self)

/-- Member `rebind_after(std::tuple<UDependencies...>& udependencies) const`
(lines 237-243). -/
def rebind_after_lvalue_tuple [Inhabited σ] (rule : CaptureRule α)
    (self : execute_with_allocator_and_dependencies A σ α) (udependencies : List (Dep α)) :
    execute_with_allocator_and_dependencies A σ α ×
      execute_with_allocator_and_dependencies A σ α :=
  (ctor_tuple self.alloc (capture_as_dependency rule .lvalue (.tuple udependencies)), self)

/-- Member `rebind_after(std::tuple<UDependencies...>&& udependencies) const`
(lines 244-250). -/
def rebind_after_rvalue_tuple [Inhabited σ] (rule : CaptureRule α)
    (self : execute_with_allocator_and_dependencies A σ α) (udependencies : List (Dep α)) :
    execute_with_allocator_and_dependencies A σ α ×
      execute_with_allocator_and_dependencies A σ α :=
  (ctor_tuple self.alloc (capture_as_dependency rule .rvalue (.tuple udependencies)), self)

/-- The call `q.rebind_after(args...)` (lines 229-250), with its overload resolution: a
single modifiable lvalue tuple selects the overload of lines 237-243, a single rvalue tuple
the one of lines 244-250, every other argument list the variadic one of lines 229-236. -/
def rebind_after [Inhabited σ] (rule : CaptureRule α)
    (self : execute_with_allocator_and_dependencies A σ α) (args : List (Arg α)) :
    execute_with_allocator_and_dependencies A σ α ×
      execute_with_allocator_and_dependencies A σ α :=
  match args with
  | [⟨.lvalue, .tuple udependencies⟩] => rebind_after_lvalue_tuple rule self udependencies
  | [⟨.rvalue, .tuple udependencies⟩] => rebind_after_rvalue_tuple rule self udependencies
  | _ => rebind_after_pack rule self args

/-- Friend `dispatch_get_allocator` (lines 252-257); the policy is taken by reference to
`const`. -/
def dispatch_get_allocator (system : execute_with_allocator_and_dependencies A σ α) : A :=
  system.alloc

/-- Friend `dispatch_get_raw_stream` (lines 259-266). -/
def dispatch_get_raw_stream (get_raw_stream : List (Dep α) → S)
    (system : execute_with_allocator_and_dependencies A σ α) : S :=
  get_raw_stream system.dependencies

/-- Friend `dispatch_extract_dependencies` (lines 268-273): only `dependencies` is moved
from; `alloc` is not touched. -/
def dispatch_extract_dependencies (moved : α → α)
    (system : execute_with_allocator_and_dependencies A σ α) :
    List (Dep α) × execute_with_allocator_and_dependencies A σ α :=
  (system.dependencies,
   { system with dependencies := moved_from_each moved system.dependencies })

end execute_with_allocator_and_dependencies

/-- What a caller can hand to the generic entry point `extract_dependencies`: a policy that
no decorator wraps, or one of the two decorated policies. -/
inductive System (A σ α : Type) where
  | plain (policy : σ)
  | with_dependencies (policy : execute_with_dependencies σ α)
  | with_allocator_and_dependencies (policy : execute_with_allocator_and_dependencies A σ α)

/-- Static type of the argument expression of a call of `extract_dependencies`. Every policy
type derives from `execution_policy_base<Derived>`; the expression either has exactly that
base type, or the type of the policy itself (or of another class derived from the base). -/
inductive StaticType where
  | policy_base
  | derived
  deriving DecidableEq, Repr

/-- The cast `derived_cast` of thrust/detail/execution_policy.h, which this header calls and
does not define. It views a policy through its most derived type and leaves the object
alone. Its overloads take `execution_policy_base<Derived>&`, returning `Derived&`, and
`const execution_policy_base<Derived>&`, returning `const Derived&`; an rvalue argument binds
to the second. The result is the object together with whether the reference returned is a
modifiable lvalue. -/
def derived_cast {A σ α : Type} (cat : Cat) (policy : System A σ α) : Bool × System A σ α :=
  match cat with
  | .lvalue => (true, policy)
  | .rvalue => (false, policy)

/-- The expression `dispatch_extract_dependencies(derived_cast(policy))` of lines 287 and
293. Argument-dependent lookup finds the friend of the decorated policy, which takes its
argument by reference to non-const (`execute_with_dependencies& system`, lines 152 and 270):
the expression is ill-formed (`none`) when the cast does not give a modifiable lvalue, and
for a policy type without such a friend. An ill-formed expression removes the overload whose
return type it is. -/
def System.dispatch_extract_dependencies {A σ α : Type} (moved : α → α) :
    Bool × System A σ α → Option (List (Dep α) × System A σ α)
  | (false, _) => none
  | (true, .plain _) => none
  | (true, .with_dependencies p) =>
      some ((execute_with_dependencies.dispatch_extract_dependencies moved p).1,
            .with_dependencies (execute_with_dependencies.dispatch_extract_dependencies moved p).2)
  | (true, .with_allocator_and_dependencies p) =>
      some ((execute_with_allocator_and_dependencies.dispatch_extract_dependencies moved p).1,
            .with_allocator_and_dependencies
              (execute_with_allocator_and_dependencies.dispatch_extract_dependencies moved p).2)

/-- The fallback `extract_dependencies(System&&)` of lines 276-281: an empty tuple, the
argument untouched. -/
def extract_dependencies_fallback {A σ α : Type} (system : System A σ α) :
    List (Dep α) × System A σ α :=
  ([], system)

/-- The overload `extract_dependencies(execution_policy_base<Derived>& policy)` of lines
283-288; `none` when its return type is ill-formed. -/
def extract_dependencies_policy_lvalue {A σ α : Type} (moved : α → α)
    (policy : System A σ α) : Option (List (Dep α) × System A σ α) :=
  System.dispatch_extract_dependencies moved (derived_cast .lvalue policy)

/-- The overload `extract_dependencies(execution_policy_base<Derived>&& policy)` of lines
289-294; `none` when its return type is ill-formed, which it is for every policy: the cast
of `std::move(policy)` is not a modifiable lvalue. -/
def extract_dependencies_policy_rvalue {A σ α : Type} (moved : α → α)
    (policy : System A σ α) : Option (List (Dep α) × System A σ α) :=
  System.dispatch_extract_dependencies moved (derived_cast .rvalue policy)

/-- The call `extract_dependencies(arg)` (lines 276-294), with its overload resolution. The
result is the returned tuple together with the argument object as the call leaves it.

* The fallback takes a forwarding reference `System&&`, so it binds to every argument with
  the identity conversion.
* The two policy overloads take `execution_policy_base<Derived>&` and `...&&`. When the
  argument has exactly that static type they bind with the identity conversion as well and,
  being more specialised, are preferred to the fallback where their return type is
  well-formed. When the argument has the type of the policy itself, binding needs a
  derived-to-base conversion, which ranks below the identity conversion: the fallback is the
  better match and is selected. -/
def extract_dependencies {A σ α : Type} (moved : α → α) (ty : StaticType) (cat : Cat)
    (arg : System A σ α) : List (Dep α) × System A σ α :=
  match ty, cat with
  | .derived, _ => extract_dependencies_fallback arg
  | .policy_base, .lvalue =>
      (extract_dependencies_policy_lvalue moved arg).getD (extract_dependencies_fallback arg)
  | .policy_base, .rvalue =>
      (extract_dependencies_policy_rvalue moved arg).getD (extract_dependencies_fallback arg)

/-- Modelled from the spec: `get_raw_stream` over a dependency tuple, the scan of the backend,
which this header calls and does not define. The spec: it "scans the Prerequisite List for
the first stream-bearing entry and returns it; returns a sentinel no explicit stream value
if none is present". `stream_of` is the test of the backend on one entry: the stream the
entry bears, if it bears one. -/
def get_raw_stream {α S : Type} (stream_of : Dep α → Option S) (sentinel : S) :
    List (Dep α) → S
  | [] => sentinel
  | d :: ds =>
      match stream_of d with
      | some s => s
      | none => get_raw_stream stream_of sentinel ds

/-- The chained call `p.on(s1).on(s2)...on(sk)` on the plain decorator: every `on` is made
on the policy that the previous one returned. -/
def execute_with_dependencies.on_streams {σ α S : Type} [Inhabited σ] (nonowning : S → α)
    (moved : α → α) (self : execute_with_dependencies σ α) :
    List S → execute_with_dependencies σ α
  | [] => self
  | s :: ss => on_streams nonowning moved (self.on_stream nonowning moved s).1 ss

/-- The chained call `p.on(s1).on(s2)...on(sk)` on the allocator variant. -/
def execute_with_allocator_and_dependencies.on_streams {A σ α S : Type} [Inhabited σ]
    (nonowning : S → α) (moved : α → α)
    (self : execute_with_allocator_and_dependencies A σ α) :
    List S → execute_with_allocator_and_dependencies A σ α
  | [] => self
  | s :: ss => on_streams nonowning moved (self.on_stream nonowning moved s).1 ss

/-! ## Sequences of calls -/

/-- What the dependency types and the backend contribute to a run of calls: the capture
overloads, the non-owning stream wrapper, the moved-from state of an object, and the stream
scan of the backend. -/
structure Env (α S : Type) where
  rule : CaptureRule α
  nonowning : S → α
  moved : α → α
  get_raw_stream : List (Dep α) → S

/-- One call of a public operation that both decorators have. For a member that returns a
new policy, `result` says on which object the next call is made: on the returned policy
(`true`) or on the receiver (`false`). -/
inductive Op (α S : Type) where
  | on_stream (stream : S) (result : Bool)
  | rebind_after (udependencies : List (Arg α)) (result : Bool)
  | rebind_after_lvalue_tuple (udependencies : List (Dep α)) (result : Bool)
  | rebind_after_rvalue_tuple (udependencies : List (Dep α)) (result : Bool)
  | get_raw_stream
  | extract

/-- One call of a public operation of the allocator variant: one of the common ones, or
`dispatch_get_allocator`. -/
inductive AllocOp (α S : Type) where
  | common (op : Op α S)
  | get_allocator

/-- What a call returns about prerequisites: a raw stream, or an extracted tuple. -/
inductive Obs (α S : Type) where
  | stream (s : S)
  | extracted (dependencies : List (Dep α))

/-- A policy object together with the list its constructor was given. -/
structure Tracked (P α : Type) where
  constructed : List (Dep α)
  policy : P

/-- A freshly constructed plain policy: whatever constructor built it, the list it was
constructed with is the one it holds. -/
def execute_with_dependencies.fresh {σ α : Type} (p : execute_with_dependencies σ α) :
    Tracked (execute_with_dependencies σ α) α :=
  { constructed := p.dependencies, policy := p }

/-- A freshly constructed policy of the allocator variant. -/
def execute_with_allocator_and_dependencies.fresh {A σ α : Type}
    (q : execute_with_allocator_and_dependencies A σ α) :
    Tracked (execute_with_allocator_and_dependencies A σ α) α :=
  { constructed := q.dependencies, policy := q }

/-- One call on a plain policy: the object the next call is made on, and what the call
returned about prerequisites. -/
def execute_with_dependencies.step {σ α S : Type} [Inhabited σ] (env : Env α S)
    (op : Op α S) (t : Tracked (execute_with_dependencies σ α) α) :
    Tracked (execute_with_dependencies σ α) α × List (Obs α S) :=
  match op with
  | .on_stream stream result =>
      (if result then fresh (t.policy.on_stream env.nonowning env.moved stream).1
       else { t with policy := (t.policy.on_stream env.nonowning env.moved stream).2 }, [])
  | .rebind_after udependencies result =>
      (if result then fresh (t.policy.rebind_after env.rule udependencies).1
       else { t with policy := (t.policy.rebind_after env.rule udependencies).2 }, [])
  | .rebind_after_lvalue_tuple udependencies result =>
      (if result then fresh (t.policy.rebind_after_lvalue_tuple env.rule udependencies).1
       else { t with policy := (t.policy.rebind_after_lvalue_tuple env.rule udependencies).2 },
       [])
  | .rebind_after_rvalue_tuple udependencies result =>
      (if result then fresh (t.policy.rebind_after_rvalue_tuple env.rule udependencies).1
       else { t with policy := (t.policy.rebind_after_rvalue_tuple env.rule udependencies).2 },
       [])
  | .get_raw_stream => (t, [.stream (t.policy.dispatch_get_raw_stream env.get_raw_stream)])
  | .extract =>
      ({ t with policy := (dispatch_extract_dependencies env.moved t.policy).2 },
       [.extracted (dispatch_extract_dependencies env.moved t.policy).1])

/-- A sequence of calls on a plain policy, first call first: the object reached, and what
the calls returned about prerequisites, in order. -/
def execute_with_dependencies.run {σ α S : Type} [Inhabited σ] (env : Env α S) :
    List (Op α S) → Tracked (execute_with_dependencies σ α) α →
      Tracked (execute_with_dependencies σ α) α × List (Obs α S)
  | [], t => (t, [])
  | op :: ops, t => ((run env ops (step env op t).1).1,
      (step env op t).2 ++ (run env ops (step env op t).1).2)

/-- One common call on a policy of the allocator variant. -/
def execute_with_allocator_and_dependencies.step_common {A σ α S : Type} [Inhabited σ]
    (env : Env α S) (op : Op α S)
    (t : Tracked (execute_with_allocator_and_dependencies A σ α) α) :
    Tracked (execute_with_allocator_and_dependencies A σ α) α × List (Obs α S) :=
  match op with
  | .on_stream stream result =>
      (if result then fresh (t.policy.on_stream env.nonowning env.moved stream).1
       else { t with policy := (t.policy.on_stream env.nonowning env.moved stream).2 }, [])
  | .rebind_after udependencies result =>
      (if result then fresh (t.policy.rebind_after env.rule udependencies).1
       else { t with policy := (t.policy.rebind_after env.rule udependencies).2 }, [])
  | .rebind_after_lvalue_tuple udependencies result =>
      (if result then fresh (t.policy.rebind_after_lvalue_tuple env.rule udependencies).1
       else { t with policy := (t.policy.rebind_after_lvalue_tuple env.rule udependencies).2 },
       [])
  | .rebind_after_rvalue_tuple udependencies result =>
      (if result then fresh (t.policy.rebind_after_rvalue_tuple env.rule udependencies).1
       else { t with policy := (t.policy.rebind_after_rvalue_tuple env.rule udependencies).2 },
       [])
  | .get_raw_stream => (t, [.stream (t.policy.dispatch_get_raw_stream env.get_raw_stream)])
  | .extract =>
      ({ t with policy := (dispatch_extract_dependencies env.moved t.policy).2 },
       [.extracted (dispatch_extract_dependencies env.moved t.policy).1])

/-- One call on a policy of the allocator variant. `dispatch_get_allocator` takes the policy
by reference to `const` and returns its allocator: the policy is as it was, and nothing about
prerequisites is returned. -/
def execute_with_allocator_and_dependencies.step {A σ α S : Type} [Inhabited σ]
    (env : Env α S) (op : AllocOp α S)
    (t : Tracked (execute_with_allocator_and_dependencies A σ α) α) :
    Tracked (execute_with_allocator_and_dependencies A σ α) α × List (Obs α S) :=
  match op with
  | .common op => step_common env op t
  | .get_allocator => (t, [])

/-- A sequence of calls on a policy of the allocator variant, first call first. -/
def execute_with_allocator_and_dependencies.run {A σ α S : Type} [Inhabited σ]
    (env : Env α S) :
    List (AllocOp α S) → Tracked (execute_with_allocator_and_dependencies A σ α) α →
      Tracked (execute_with_allocator_and_dependencies A σ α) α × List (Obs α S)
  | [], t => (t, [])
  | op :: ops, t => ((run env ops (step env op t).1).1,
      (step env op t).2 ++ (run env ops (step env op t).1).2)

/-- The plain decorator that is left when the allocator of a policy is forgotten. -/
def forget_allocator {A σ α : Type} (q : execute_with_allocator_and_dependencies A σ α) :
    execute_with_dependencies σ α :=
  { base := q.base, dependencies := q.dependencies }

/-- Forgetting the allocator of a tracked policy. -/
def Tracked.forget_allocator {A σ α : Type}
    (t : Tracked (execute_with_allocator_and_dependencies A σ α) α) :
    Tracked (execute_with_dependencies σ α) α :=
  { constructed := t.constructed, policy := thrust.detail.forget_allocator t.policy }

/-- A sample backend for concrete evaluation: an object of a dependency type is `some s`, a
stream wrapper that bears the stream `s`, or `none`, which bears no stream; a nested tuple
bears none. -/
def sample_stream_of : Dep (Option Nat) → Option Nat
  | .atom o => o
  | .tuple _ => none

/-- A sample environment for concrete evaluation, over dependency objects and streams that
are numbers: default capture, a stream wrapped as its own number, `0` as the moved-from state
of every object, and a scan that finds no stream. -/
def sample_env : Env Nat Nat :=
  { rule := default_rule, nonowning := fun s => s, moved := fun _ => 0,
    get_raw_stream := fun _ => 0 }

/-! ## Auxiliary facts -/

section Auxiliary

variable {A σ α S : Type}

theorem moved_from_each_eq_map (moved : α → α) (ds : List (Dep α)) :
    moved_from_each moved ds = ds.map (moved_from moved) := by
  induction ds with
  | nil => simp [moved_from_each]
  | cons d ds ih => simp [moved_from_each, ih]

theorem length_moved_from_each (moved : α → α) (ds : List (Dep α)) :
    (moved_from_each moved ds).length = ds.length := by
  simp [moved_from_each_eq_map]

theorem rebind_after_resolution [Inhabited σ] (rule : CaptureRule α)
    (p : execute_with_dependencies σ α) (args : List (Arg α)) :
    p.rebind_after rule args = p.rebind_after_pack rule args
    ∨ (∃ T, p.rebind_after rule args = p.rebind_after_lvalue_tuple rule T)
    ∨ (∃ T, p.rebind_after rule args = p.rebind_after_rvalue_tuple rule T) := by
  unfold execute_with_dependencies.rebind_after
  split
  · exact Or.inr (Or.inl ⟨_, rfl⟩)
  · exact Or.inr (Or.inr ⟨_, rfl⟩)
  · exact Or.inl rfl

theorem rebind_after_resolution_alloc [Inhabited σ] (rule : CaptureRule α)
    (q : execute_with_allocator_and_dependencies A σ α) (args : List (Arg α)) :
    q.rebind_after rule args = q.rebind_after_pack rule args
    ∨ (∃ T, q.rebind_after rule args = q.rebind_after_lvalue_tuple rule T)
    ∨ (∃ T, q.rebind_after rule args = q.rebind_after_rvalue_tuple rule T) := by
  unfold execute_with_allocator_and_dependencies.rebind_after
  split
  · exact Or.inr (Or.inl ⟨_, rfl⟩)
  · exact Or.inr (Or.inr ⟨_, rfl⟩)
  · exact Or.inl rfl

theorem rebind_after_receiver [Inhabited σ] (rule : CaptureRule α)
    (p : execute_with_dependencies σ α) (args : List (Arg α)) :
    (p.rebind_after rule args).2 = p := by
  rcases rebind_after_resolution rule p args with h | ⟨T, h⟩ | ⟨T, h⟩ <;>
    simp [h, execute_with_dependencies.rebind_after_pack,
      execute_with_dependencies.rebind_after_lvalue_tuple,
      execute_with_dependencies.rebind_after_rvalue_tuple]

theorem rebind_after_receiver_alloc [Inhabited σ] (rule : CaptureRule α)
    (q : execute_with_allocator_and_dependencies A σ α) (args : List (Arg α)) :
    (q.rebind_after rule args).2 = q := by
  rcases rebind_after_resolution_alloc rule q args with h | ⟨T, h⟩ | ⟨T, h⟩ <;>
    simp [h, execute_with_allocator_and_dependencies.rebind_after_pack,
      execute_with_allocator_and_dependencies.rebind_after_lvalue_tuple,
      execute_with_allocator_and_dependencies.rebind_after_rvalue_tuple]

theorem rebind_after_result_alloc [Inhabited σ] (rule : CaptureRule α)
    (q : execute_with_allocator_and_dependencies A σ α) (args : List (Arg α)) :
    (q.rebind_after rule args).1.alloc = q.alloc := by
  rcases rebind_after_resolution_alloc rule q args with h | ⟨T, h⟩ | ⟨T, h⟩ <;>
    simp [h, execute_with_allocator_and_dependencies.rebind_after_pack,
      execute_with_allocator_and_dependencies.rebind_after_lvalue_tuple,
      execute_with_allocator_and_dependencies.rebind_after_rvalue_tuple,
      execute_with_allocator_and_dependencies.ctor_pack,
      execute_with_allocator_and_dependencies.ctor_tuple]

theorem forget_allocator_rebind_after [Inhabited σ] (rule : CaptureRule α)
    (q : execute_with_allocator_and_dependencies A σ α) (args : List (Arg α)) :
    forget_allocator (q.rebind_after rule args).1
      = ((forget_allocator q).rebind_after rule args).1 := by
  unfold execute_with_allocator_and_dependencies.rebind_after
    execute_with_dependencies.rebind_after
  split <;>
    simp [forget_allocator, execute_with_allocator_and_dependencies.rebind_after_pack,
      execute_with_allocator_and_dependencies.rebind_after_lvalue_tuple,
      execute_with_allocator_and_dependencies.rebind_after_rvalue_tuple,
      execute_with_dependencies.rebind_after_pack,
      execute_with_dependencies.rebind_after_lvalue_tuple,
      execute_with_dependencies.rebind_after_rvalue_tuple,
      execute_with_allocator_and_dependencies.ctor_pack,
      execute_with_allocator_and_dependencies.ctor_tuple,
      execute_with_dependencies.ctor_pack, execute_with_dependencies.ctor_tuple]

theorem moved_from_each_iterate (moved : α → α) (k : Nat) (L : List (Dep α)) :
    moved_from_each moved (L.map ((moved_from moved)^[k]))
      = L.map ((moved_from moved)^[k + 1]) := by
  rw [moved_from_each_eq_map, List.map_map, Function.iterate_succ']

theorem dependencies_on_streams [Inhabited σ] (nonowning : S → α) (moved : α → α)
    (ss : List S) (p : execute_with_dependencies σ α) :
    (p.on_streams nonowning moved ss).dependencies
      = (ss.reverse.map (fun s => Dep.atom (nonowning s))) ++ p.dependencies := by
  induction ss generalizing p with
  | nil => simp [execute_with_dependencies.on_streams]
  | cons s ss ih =>
      simp [execute_with_dependencies.on_streams, ih, execute_with_dependencies.on_stream,
        execute_with_dependencies.ctor_tuple, Dep.elements, tuple_cat, make_tuple]

theorem dependencies_on_streams_alloc [Inhabited σ] (nonowning : S → α) (moved : α → α)
    (ss : List S) (q : execute_with_allocator_and_dependencies A σ α) :
    (q.on_streams nonowning moved ss).dependencies
      = (ss.reverse.map (fun s => Dep.atom (nonowning s))) ++ q.dependencies := by
  induction ss generalizing q with
  | nil => simp [execute_with_allocator_and_dependencies.on_streams]
  | cons s ss ih =>
      simp [execute_with_allocator_and_dependencies.on_streams, ih,
        execute_with_allocator_and_dependencies.on_stream,
        execute_with_allocator_and_dependencies.ctor_tuple, Dep.elements, tuple_cat,
        make_tuple]

theorem step_moved_uniformly [Inhabited σ] (env : Env α S) (op : Op α S)
    (t : Tracked (execute_with_dependencies σ α) α)
    (h : ∃ k, t.policy.dependencies = t.constructed.map ((moved_from env.moved)^[k])) :
    ∃ k, (execute_with_dependencies.step env op t).1.policy.dependencies
      = (execute_with_dependencies.step env op t).1.constructed.map
          ((moved_from env.moved)^[k]) := by
  obtain ⟨k, hk⟩ := h
  cases op with
  | on_stream stream result =>
      cases result
      · exact ⟨k + 1, by
          simp [execute_with_dependencies.step, execute_with_dependencies.on_stream, hk,
            moved_from_each_iterate]⟩
      · exact ⟨0, by simp [execute_with_dependencies.step, execute_with_dependencies.fresh]⟩
  | rebind_after udependencies result =>
      cases result
      · exact ⟨k, by
          simp [execute_with_dependencies.step, rebind_after_receiver, hk]⟩
      · exact ⟨0, by simp [execute_with_dependencies.step, execute_with_dependencies.fresh]⟩
  | rebind_after_lvalue_tuple udependencies result =>
      cases result
      · exact ⟨k, by
          simp [execute_with_dependencies.step,
            execute_with_dependencies.rebind_after_lvalue_tuple, hk]⟩
      · exact ⟨0, by simp [execute_with_dependencies.step, execute_with_dependencies.fresh]⟩
  | rebind_after_rvalue_tuple udependencies result =>
      cases result
      · exact ⟨k, by
          simp [execute_with_dependencies.step,
            execute_with_dependencies.rebind_after_rvalue_tuple, hk]⟩
      · exact ⟨0, by simp [execute_with_dependencies.step, execute_with_dependencies.fresh]⟩
  | get_raw_stream => exact ⟨k, by simp [execute_with_dependencies.step, hk]⟩
  | extract =>
      exact ⟨k + 1, by
        simp [execute_with_dependencies.step,
          execute_with_dependencies.dispatch_extract_dependencies, hk,
          moved_from_each_iterate]⟩

theorem run_moved_uniformly [Inhabited σ] (env : Env α S) (ops : List (Op α S))
    (t : Tracked (execute_with_dependencies σ α) α)
    (h : ∃ k, t.policy.dependencies = t.constructed.map ((moved_from env.moved)^[k])) :
    ∃ k, (execute_with_dependencies.run env ops t).1.policy.dependencies
      = (execute_with_dependencies.run env ops t).1.constructed.map
          ((moved_from env.moved)^[k]) := by
  induction ops generalizing t with
  | nil => simpa [execute_with_dependencies.run] using h
  | cons op ops ih =>
      simp only [execute_with_dependencies.run]
      exact ih _ (step_moved_uniformly env op t h)

theorem step_common_moved_uniformly [Inhabited σ] (env : Env α S) (op : Op α S)
    (t : Tracked (execute_with_allocator_and_dependencies A σ α) α)
    (h : ∃ k, t.policy.dependencies = t.constructed.map ((moved_from env.moved)^[k])) :
    ∃ k, (execute_with_allocator_and_dependencies.step_common env op t).1.policy.dependencies
      = (execute_with_allocator_and_dependencies.step_common env op t).1.constructed.map
          ((moved_from env.moved)^[k]) := by
  obtain ⟨k, hk⟩ := h
  cases op with
  | on_stream stream result =>
      cases result
      · exact ⟨k + 1, by
          simp [execute_with_allocator_and_dependencies.step_common,
            execute_with_allocator_and_dependencies.on_stream, hk, moved_from_each_iterate]⟩
      · exact ⟨0, by
          simp [execute_with_allocator_and_dependencies.step_common,
            execute_with_allocator_and_dependencies.fresh]⟩
  | rebind_after udependencies result =>
      cases result
      · exact ⟨k, by
          simp [execute_with_allocator_and_dependencies.step_common,
            rebind_after_receiver_alloc, hk]⟩
      · exact ⟨0, by
          simp [execute_with_allocator_and_dependencies.step_common,
            execute_with_allocator_and_dependencies.fresh]⟩
  | rebind_after_lvalue_tuple udependencies result =>
      cases result
      · exact ⟨k, by
          simp [execute_with_allocator_and_dependencies.step_common,
            execute_with_allocator_and_dependencies.rebind_after_lvalue_tuple, hk]⟩
      · exact ⟨0, by
          simp [execute_with_allocator_and_dependencies.step_common,
            execute_with_allocator_and_dependencies.fresh]⟩
  | rebind_after_rvalue_tuple udependencies result =>
      cases result
      · exact ⟨k, by
          simp [execute_with_allocator_and_dependencies.step_common,
            execute_with_allocator_and_dependencies.rebind_after_rvalue_tuple, hk]⟩
      · exact ⟨0, by
          simp [execute_with_allocator_and_dependencies.step_common,
            execute_with_allocator_and_dependencies.fresh]⟩
  | get_raw_stream =>
      exact ⟨k, by simp [execute_with_allocator_and_dependencies.step_common, hk]⟩
  | extract =>
      exact ⟨k + 1, by
        simp [execute_with_allocator_and_dependencies.step_common,
          execute_with_allocator_and_dependencies.dispatch_extract_dependencies, hk,
          moved_from_each_iterate]⟩

theorem run_alloc_moved_uniformly [Inhabited σ] (env : Env α S) (ops : List (AllocOp α S))
    (t : Tracked (execute_with_allocator_and_dependencies A σ α) α)
    (h : ∃ k, t.policy.dependencies = t.constructed.map ((moved_from env.moved)^[k])) :
    ∃ k, (execute_with_allocator_and_dependencies.run env ops t).1.policy.dependencies
      = (execute_with_allocator_and_dependencies.run env ops t).1.constructed.map
          ((moved_from env.moved)^[k]) := by
  induction ops generalizing t with
  | nil => simpa [execute_with_allocator_and_dependencies.run] using h
  | cons op ops ih =>
      simp only [execute_with_allocator_and_dependencies.run]
      apply ih
      cases op with
      | common op =>
          simpa [execute_with_allocator_and_dependencies.step] using
            step_common_moved_uniformly env op t h
      | get_allocator => simpa [execute_with_allocator_and_dependencies.step] using h

theorem forget_allocator_step_common [Inhabited σ] (env : Env α S) (op : Op α S)
    (t : Tracked (execute_with_allocator_and_dependencies A σ α) α) :
    (execute_with_allocator_and_dependencies.step_common env op t).1.forget_allocator
        = (execute_with_dependencies.step env op t.forget_allocator).1
    ∧ (execute_with_allocator_and_dependencies.step_common env op t).2
        = (execute_with_dependencies.step env op t.forget_allocator).2 := by
  cases op with
  | on_stream stream result =>
      cases result <;>
        simp [execute_with_allocator_and_dependencies.step_common,
          execute_with_dependencies.step, Tracked.forget_allocator, forget_allocator,
          execute_with_allocator_and_dependencies.on_stream,
          execute_with_dependencies.on_stream,
          execute_with_allocator_and_dependencies.ctor_tuple,
          execute_with_dependencies.ctor_tuple,
          execute_with_allocator_and_dependencies.fresh, execute_with_dependencies.fresh]
  | rebind_after udependencies result =>
      have h1 := forget_allocator_rebind_after env.rule t.policy udependencies
      have h2 := rebind_after_receiver_alloc env.rule t.policy udependencies
      have h3 := rebind_after_receiver env.rule (forget_allocator t.policy) udependencies
      cases result
      · simp [execute_with_allocator_and_dependencies.step_common,
          execute_with_dependencies.step, Tracked.forget_allocator, h2, h3]
      · simp only [execute_with_allocator_and_dependencies.step_common,
          execute_with_dependencies.step, Tracked.forget_allocator, if_true,
          execute_with_allocator_and_dependencies.fresh, execute_with_dependencies.fresh,
          ← h1]
        simp [forget_allocator]
  | rebind_after_lvalue_tuple udependencies result =>
      cases result <;>
        simp [execute_with_allocator_and_dependencies.step_common,
          execute_with_dependencies.step, Tracked.forget_allocator, forget_allocator,
          execute_with_allocator_and_dependencies.rebind_after_lvalue_tuple,
          execute_with_dependencies.rebind_after_lvalue_tuple,
          execute_with_allocator_and_dependencies.ctor_tuple,
          execute_with_dependencies.ctor_tuple,
          execute_with_allocator_and_dependencies.fresh, execute_with_dependencies.fresh]
  | rebind_after_rvalue_tuple udependencies result =>
      cases result <;>
        simp [execute_with_allocator_and_dependencies.step_common,
          execute_with_dependencies.step, Tracked.forget_allocator, forget_allocator,
          execute_with_allocator_and_dependencies.rebind_after_rvalue_tuple,
          execute_with_dependencies.rebind_after_rvalue_tuple,
          execute_with_allocator_and_dependencies.ctor_tuple,
          execute_with_dependencies.ctor_tuple,
          execute_with_allocator_and_dependencies.fresh, execute_with_dependencies.fresh]
  | get_raw_stream =>
      simp [execute_with_allocator_and_dependencies.step_common,
        execute_with_dependencies.step, Tracked.forget_allocator, forget_allocator,
        execute_with_allocator_and_dependencies.dispatch_get_raw_stream,
        execute_with_dependencies.dispatch_get_raw_stream]
  | extract =>
      simp [execute_with_allocator_and_dependencies.step_common,
        execute_with_dependencies.step, Tracked.forget_allocator, forget_allocator,
        execute_with_allocator_and_dependencies.dispatch_extract_dependencies,
        execute_with_dependencies.dispatch_extract_dependencies]

theorem forget_allocator_run [Inhabited σ] (env : Env α S) (ops : List (Op α S))
    (t : Tracked (execute_with_allocator_and_dependencies A σ α) α) :
    (execute_with_allocator_and_dependencies.run env (ops.map AllocOp.common)
        t).1.forget_allocator = (execute_with_dependencies.run env ops t.forget_allocator).1
    ∧ (execute_with_allocator_and_dependencies.run env (ops.map AllocOp.common) t).2
        = (execute_with_dependencies.run env ops t.forget_allocator).2 := by
  induction ops generalizing t with
  | nil => simp [execute_with_allocator_and_dependencies.run, execute_with_dependencies.run]
  | cons op ops ih =>
      have hs := forget_allocator_step_common env op t
      have hr := ih (execute_with_allocator_and_dependencies.step_common env op t).1
      simp only [List.map_cons, execute_with_allocator_and_dependencies.run,
        execute_with_dependencies.run, execute_with_allocator_and_dependencies.step]
      rw [← hs.1, ← hs.2]
      exact ⟨hr.1, by rw [hr.2]⟩

theorem get_raw_stream_of_none (stream_of : Dep α → Option S) (sentinel : S)
    (L : List (Dep α)) (h : ∀ d ∈ L, stream_of d = none) :
    get_raw_stream stream_of sentinel L = sentinel := by
  induction L with
  | nil => simp [get_raw_stream]
  | cons d ds ih =>
      have hd : stream_of d = none := h d (by simp)
      have hds : ∀ e ∈ ds, stream_of e = none := fun e he => h e (by simp [he])
      simp [get_raw_stream, hd, ih hds]

theorem step_alloc_unchanged [Inhabited σ] (env : Env α S) (op : AllocOp α S)
    (t : Tracked (execute_with_allocator_and_dependencies A σ α) α) :
    (execute_with_allocator_and_dependencies.step env op t).1.policy.alloc = t.policy.alloc := by
  cases op with
  | get_allocator => simp [execute_with_allocator_and_dependencies.step]
  | common op =>
      cases op with
      | on_stream stream result =>
          cases result <;>
            simp [execute_with_allocator_and_dependencies.step,
              execute_with_allocator_and_dependencies.step_common,
              execute_with_allocator_and_dependencies.on_stream,
              execute_with_allocator_and_dependencies.ctor_tuple,
              execute_with_allocator_and_dependencies.fresh]
      | rebind_after udependencies result =>
          cases result <;>
            simp [execute_with_allocator_and_dependencies.step,
              execute_with_allocator_and_dependencies.step_common,
              rebind_after_receiver_alloc, rebind_after_result_alloc,
              execute_with_allocator_and_dependencies.fresh]
      | rebind_after_lvalue_tuple udependencies result =>
          cases result <;>
            simp [execute_with_allocator_and_dependencies.step,
              execute_with_allocator_and_dependencies.step_common,
              execute_with_allocator_and_dependencies.rebind_after_lvalue_tuple,
              execute_with_allocator_and_dependencies.ctor_tuple,
              execute_with_allocator_and_dependencies.fresh]
      | rebind_after_rvalue_tuple udependencies result =>
          cases result <;>
            simp [execute_with_allocator_and_dependencies.step,
              execute_with_allocator_and_dependencies.step_common,
              execute_with_allocator_and_dependencies.rebind_after_rvalue_tuple,
              execute_with_allocator_and_dependencies.ctor_tuple,
              execute_with_allocator_and_dependencies.fresh]
      | get_raw_stream =>
          simp [execute_with_allocator_and_dependencies.step,
            execute_with_allocator_and_dependencies.step_common]
      | extract =>
          simp [execute_with_allocator_and_dependencies.step,
            execute_with_allocator_and_dependencies.step_common,
            execute_with_allocator_and_dependencies.dispatch_extract_dependencies]

theorem run_alloc_unchanged [Inhabited σ] (env : Env α S) (ops : List (AllocOp α S))
    (t : Tracked (execute_with_allocator_and_dependencies A σ α) α) :
    (execute_with_allocator_and_dependencies.run env ops t).1.policy.alloc = t.policy.alloc := by
  induction ops generalizing t with
  | nil => simp [execute_with_allocator_and_dependencies.run]
  | cons op ops ih =>
      simp only [execute_with_allocator_and_dependencies.run]
      rw [ih, step_alloc_unchanged]

theorem extract_iterate_alloc (moved : α → α) (n : Nat)
    (q : execute_with_allocator_and_dependencies A σ α) :
    ((fun x => (execute_with_allocator_and_dependencies.dispatch_extract_dependencies
        moved x).2)^[n] q).alloc = q.alloc := by
  induction n generalizing q with
  | zero => simp
  | succ n ih =>
      rw [Function.iterate_succ_apply, ih]
      simp [execute_with_allocator_and_dependencies.dispatch_extract_dependencies]

end Auxiliary

/-! ## Rebinding, stream attachment, construction -/

section Claims

variable {A σ α S : Type}

/-- C2: for a policy of either kind holding the list `L` and every stream `s`, extracting
from `p.on(s)` returns the non-owning wrap of `s` followed by `L` in its order: a list of
length `|L| + 1` whose first element is that wrap and whose rest is `L`. -/
theorem on_then_extract [Inhabited σ] (nonowning : S → α) (moved : α → α)
    (p : execute_with_dependencies σ α) (q : execute_with_allocator_and_dependencies A σ α)
    (s : S) :
    (execute_with_dependencies.dispatch_extract_dependencies moved
        (p.on_stream nonowning moved s).1).1 = Dep.atom (nonowning s) :: p.dependencies
    ∧ (execute_with_allocator_and_dependencies.dispatch_extract_dependencies moved
        (q.on_stream nonowning moved s).1).1 = Dep.atom (nonowning s) :: q.dependencies
    ∧ (execute_with_dependencies.dispatch_extract_dependencies moved
        (p.on_stream nonowning moved s).1).1.length = p.dependencies.length + 1
    ∧ (execute_with_allocator_and_dependencies.dispatch_extract_dependencies moved
        (q.on_stream nonowning moved s).1).1.length = q.dependencies.length + 1
    ∧ (execute_with_dependencies.dispatch_extract_dependencies moved
        (p.on_stream nonowning moved s).1).1.head? = some (Dep.atom (nonowning s))
    ∧ (execute_with_dependencies.dispatch_extract_dependencies moved
        (p.on_stream nonowning moved s).1).1.tail = p.dependencies
    ∧ (execute_with_allocator_and_dependencies.dispatch_extract_dependencies moved
        (q.on_stream nonowning moved s).1).1.head? = some (Dep.atom (nonowning s))
    ∧ (execute_with_allocator_and_dependencies.dispatch_extract_dependencies moved
        (q.on_stream nonowning moved s).1).1.tail = q.dependencies := by
  simp [execute_with_dependencies.dispatch_extract_dependencies,
    execute_with_dependencies.on_stream, execute_with_dependencies.ctor_tuple,
    execute_with_allocator_and_dependencies.dispatch_extract_dependencies,
    execute_with_allocator_and_dependencies.on_stream,
    execute_with_allocator_and_dependencies.ctor_tuple, Dep.elements, tuple_cat, make_tuple]

/-- C3: a policy constructed from the individually listed dependencies `d1, ..., dn` and one
constructed from the pre-built tuple `(d1, ..., dn)` hold the same list, with or without a
base policy argument, and the first extraction on either returns `(d1, ..., dn)` in order. -/
theorem construct_listed_eq_construct_tuple [Inhabited σ] (moved : α → α) (super : σ)
    (D : List (Dep α)) :
    (execute_with_dependencies.ctor_pack D : execute_with_dependencies σ α).dependencies
      = (execute_with_dependencies.ctor_tuple (Dep.tuple D) :
          execute_with_dependencies σ α).dependencies
    ∧ (execute_with_dependencies.ctor_super_pack super D).dependencies
      = (execute_with_dependencies.ctor_super_tuple super (Dep.tuple D)).dependencies
    ∧ (execute_with_dependencies.ctor_pack D : execute_with_dependencies σ α).dependencies = D
    ∧ (execute_with_dependencies.ctor_super_pack super D).dependencies = D
    ∧ (execute_with_dependencies.dispatch_extract_dependencies moved
        (execute_with_dependencies.ctor_pack D : execute_with_dependencies σ α)).1 = D
    ∧ (execute_with_dependencies.dispatch_extract_dependencies moved
        (execute_with_dependencies.ctor_tuple (Dep.tuple D) :
          execute_with_dependencies σ α)).1 = D
    ∧ (execute_with_dependencies.dispatch_extract_dependencies moved
        (execute_with_dependencies.ctor_super_pack super D)).1 = D
    ∧ (execute_with_dependencies.dispatch_extract_dependencies moved
        (execute_with_dependencies.ctor_super_tuple super (Dep.tuple D))).1 = D := by
  simp [execute_with_dependencies.dispatch_extract_dependencies,
    execute_with_dependencies.ctor_pack, execute_with_dependencies.ctor_tuple,
    execute_with_dependencies.ctor_super_pack, execute_with_dependencies.ctor_super_tuple,
    Dep.elements]

/-! ## Extraction -/

/-- C4 fails as stated: a policy holding the single dependency `7`, of a type whose moved-from
state is `0`, still holds a one-element list after the first extraction, and the second
extraction returns that one-element list, not the empty one. -/
theorem extract_twice_not_empty :
    (execute_with_dependencies.dispatch_extract_dependencies (fun _ => 0)
        (execute_with_dependencies.ctor_pack [Dep.atom 7] :
          execute_with_dependencies Unit Nat)).2.dependencies = [Dep.atom 0]
    ∧ (execute_with_dependencies.dispatch_extract_dependencies (fun _ => 0)
        (execute_with_dependencies.ctor_pack [Dep.atom 7] :
          execute_with_dependencies Unit Nat)).2.dependencies ≠ []
    ∧ (execute_with_dependencies.dispatch_extract_dependencies (fun _ => 0)
        (execute_with_dependencies.dispatch_extract_dependencies (fun _ => 0)
          (execute_with_dependencies.ctor_pack [Dep.atom 7] :
            execute_with_dependencies Unit Nat)).2).1 = [Dep.atom 0]
    ∧ (execute_with_dependencies.dispatch_extract_dependencies (fun _ => 0)
        (execute_with_dependencies.dispatch_extract_dependencies (fun _ => 0)
          (execute_with_dependencies.ctor_pack [Dep.atom 7] :
            execute_with_dependencies Unit Nat)).2).1 ≠ [] := by
  simp [execute_with_dependencies.dispatch_extract_dependencies,
    execute_with_dependencies.ctor_pack, moved_from_each, moved_from]

/-- C4, amended: for a policy of either kind holding the list `L`, the first extraction
returns `L` and leaves a list of the same length in which every entry is in its moved-from
state; a second extraction returns that list of moved-from entries, again of the length of
`L`; the base policy and the allocator are the same throughout. For a policy with zero
prerequisites both extractions return the empty list. Extraction is a total function: no
call of it fails. -/
theorem extract_twice [Inhabited σ] (moved : α → α) (p : execute_with_dependencies σ α)
    (q : execute_with_allocator_and_dependencies A σ α) (a : A) :
    (execute_with_dependencies.dispatch_extract_dependencies moved p).1 = p.dependencies
    ∧ (execute_with_dependencies.dispatch_extract_dependencies moved p).2.dependencies
        = p.dependencies.map (moved_from moved)
    ∧ (execute_with_dependencies.dispatch_extract_dependencies moved p).2.dependencies.length
        = p.dependencies.length
    ∧ (execute_with_dependencies.dispatch_extract_dependencies moved
        (execute_with_dependencies.dispatch_extract_dependencies moved p).2).1
        = p.dependencies.map (moved_from moved)
    ∧ (execute_with_dependencies.dispatch_extract_dependencies moved
        (execute_with_dependencies.dispatch_extract_dependencies moved p).2).1.length
        = p.dependencies.length
    ∧ (execute_with_dependencies.dispatch_extract_dependencies moved p).2.base = p.base
    ∧ (execute_with_allocator_and_dependencies.dispatch_extract_dependencies moved q).1
        = q.dependencies
    ∧ (execute_with_allocator_and_dependencies.dispatch_extract_dependencies moved
        q).2.dependencies = q.dependencies.map (moved_from moved)
    ∧ (execute_with_allocator_and_dependencies.dispatch_extract_dependencies moved
        (execute_with_allocator_and_dependencies.dispatch_extract_dependencies moved q).2).1
        = q.dependencies.map (moved_from moved)
    ∧ (execute_with_allocator_and_dependencies.dispatch_extract_dependencies moved
        (execute_with_allocator_and_dependencies.dispatch_extract_dependencies moved
          q).2).1.length = q.dependencies.length
    ∧ (execute_with_allocator_and_dependencies.dispatch_extract_dependencies moved q).2.base
        = q.base
    ∧ (execute_with_allocator_and_dependencies.dispatch_extract_dependencies moved q).2.alloc
        = q.alloc
    ∧ (execute_with_dependencies.dispatch_extract_dependencies moved
        (execute_with_dependencies.dispatch_extract_dependencies moved
          (execute_with_dependencies.ctor_pack [] : execute_with_dependencies σ α)).2).1 = []
    ∧ (execute_with_allocator_and_dependencies.dispatch_extract_dependencies moved
        (execute_with_allocator_and_dependencies.dispatch_extract_dependencies moved
          (execute_with_allocator_and_dependencies.ctor_pack a [] :
            execute_with_allocator_and_dependencies A σ α)).2).1 = [] := by
  simp [execute_with_dependencies.dispatch_extract_dependencies,
    execute_with_allocator_and_dependencies.dispatch_extract_dependencies,
    execute_with_dependencies.ctor_pack, execute_with_allocator_and_dependencies.ctor_pack,
    moved_from_each_eq_map]

/-- C5: the generic `extract_dependencies` returns the empty list for every policy that no
decorator wraps, however it is passed, and leaves it as it was; a decorated policy of either
kind built with zero prerequisites, from an empty argument list or from the empty tuple, also
extracts to the empty list, through the generic entry point and through its own extraction
operation. -/
theorem extract_dependencies_fallback_law [Inhabited σ] (moved : α → α) (ty : StaticType)
    (cat : Cat)
    (policy : σ) (a : A) :
    (extract_dependencies moved ty cat (System.plain policy : System A σ α)).1 = []
    ∧ (extract_dependencies moved ty cat (System.plain policy : System A σ α)).2
        = System.plain policy
    ∧ (extract_dependencies moved ty cat
        (System.with_dependencies (execute_with_dependencies.ctor_pack []) : System A σ α)).1
        = []
    ∧ (extract_dependencies moved ty cat
        (System.with_dependencies (execute_with_dependencies.ctor_tuple (Dep.tuple [])) :
          System A σ α)).1 = []
    ∧ (extract_dependencies moved ty cat
        (System.with_allocator_and_dependencies
          (execute_with_allocator_and_dependencies.ctor_pack a []) : System A σ α)).1 = []
    ∧ (extract_dependencies moved ty cat
        (System.with_allocator_and_dependencies
          (execute_with_allocator_and_dependencies.ctor_tuple a (Dep.tuple [])) :
          System A σ α)).1 = []
    ∧ (execute_with_dependencies.dispatch_extract_dependencies moved
        (execute_with_dependencies.ctor_pack [] : execute_with_dependencies σ α)).1 = []
    ∧ (execute_with_allocator_and_dependencies.dispatch_extract_dependencies moved
        (execute_with_allocator_and_dependencies.ctor_pack a [] :
          execute_with_allocator_and_dependencies A σ α)).1 = [] := by
  cases ty <;> cases cat <;>
    simp [extract_dependencies, extract_dependencies_fallback,
      extract_dependencies_policy_lvalue, extract_dependencies_policy_rvalue, derived_cast,
      System.dispatch_extract_dependencies,
      execute_with_dependencies.dispatch_extract_dependencies,
      execute_with_allocator_and_dependencies.dispatch_extract_dependencies,
      execute_with_dependencies.ctor_pack, execute_with_dependencies.ctor_tuple,
      execute_with_allocator_and_dependencies.ctor_pack,
      execute_with_allocator_and_dependencies.ctor_tuple, Dep.elements]

/-- C6 fails as stated, at a policy holding the single dependency `7` whose moved-from state
is `0`. Passed as an lvalue of type `execution_policy_base<Derived>`, the entry point does
return what the own extraction returns, but the list of the policy is `(0)` afterwards, not
empty. Passed as an rvalue of that type, or as an lvalue of its own type, the entry point
returns the empty list where the own extraction returns `(7)`, and the policy is left
untouched. -/
theorem extract_dependencies_not_uniform :
    (extract_dependencies (fun _ => 0) StaticType.policy_base Cat.lvalue
        (System.with_dependencies (execute_with_dependencies.ctor_pack [Dep.atom 7]) :
          System Unit Unit Nat)).1 = [Dep.atom 7]
    ∧ (extract_dependencies (fun _ => 0) StaticType.policy_base Cat.lvalue
        (System.with_dependencies (execute_with_dependencies.ctor_pack [Dep.atom 7]) :
          System Unit Unit Nat)).2
        = System.with_dependencies { base := (), dependencies := [Dep.atom 0] }
    ∧ (extract_dependencies (fun _ => 0) StaticType.derived Cat.lvalue
        (System.with_dependencies (execute_with_dependencies.ctor_pack [Dep.atom 7]) :
          System Unit Unit Nat)).1 = []
    ∧ (execute_with_dependencies.dispatch_extract_dependencies (fun _ => 0)
        (execute_with_dependencies.ctor_pack [Dep.atom 7] :
          execute_with_dependencies Unit Nat)).1 = [Dep.atom 7]
    ∧ (extract_dependencies (fun _ => 0) StaticType.derived Cat.lvalue
        (System.with_dependencies (execute_with_dependencies.ctor_pack [Dep.atom 7]) :
          System Unit Unit Nat)).2
        = System.with_dependencies { base := (), dependencies := [Dep.atom 7] }
    ∧ (extract_dependencies (fun _ => 0) StaticType.policy_base Cat.rvalue
        (System.with_dependencies (execute_with_dependencies.ctor_pack [Dep.atom 7]) :
          System Unit Unit Nat)).1 = []
    ∧ (extract_dependencies (fun _ => 0) StaticType.policy_base Cat.rvalue
        (System.with_dependencies (execute_with_dependencies.ctor_pack [Dep.atom 7]) :
          System Unit Unit Nat)).2
        = System.with_dependencies { base := (), dependencies := [Dep.atom 7] } := by
  simp [extract_dependencies, extract_dependencies_fallback,
    extract_dependencies_policy_lvalue, extract_dependencies_policy_rvalue, derived_cast,
    System.dispatch_extract_dependencies,
    execute_with_dependencies.dispatch_extract_dependencies,
    execute_with_dependencies.ctor_pack, moved_from_each, moved_from]

/-- C6, amended: for a decorated policy of either kind handed to `extract_dependencies` as a
modifiable lvalue of type `execution_policy_base<Derived>`, the entry point returns the list
that the own extraction operation of the policy returns, and leaves the policy as that
operation leaves it: its list has the same length, every entry in its moved-from state. -/
theorem extract_dependencies_delegates (moved : α → α)
    (p : execute_with_dependencies σ α) (q : execute_with_allocator_and_dependencies A σ α) :
    (extract_dependencies moved StaticType.policy_base Cat.lvalue
        (System.with_dependencies p : System A σ α)).1
      = (execute_with_dependencies.dispatch_extract_dependencies moved p).1
    ∧ (extract_dependencies moved StaticType.policy_base Cat.lvalue
        (System.with_dependencies p : System A σ α)).2
      = System.with_dependencies
          (execute_with_dependencies.dispatch_extract_dependencies moved p).2
    ∧ (extract_dependencies moved StaticType.policy_base Cat.lvalue
        (System.with_allocator_and_dependencies q : System A σ α)).1
      = (execute_with_allocator_and_dependencies.dispatch_extract_dependencies moved q).1
    ∧ (extract_dependencies moved StaticType.policy_base Cat.lvalue
        (System.with_allocator_and_dependencies q : System A σ α)).2
      = System.with_allocator_and_dependencies
          (execute_with_allocator_and_dependencies.dispatch_extract_dependencies moved q).2
    ∧ (execute_with_dependencies.dispatch_extract_dependencies moved p).2
      = { p with dependencies := p.dependencies.map (moved_from moved) }
    ∧ (execute_with_allocator_and_dependencies.dispatch_extract_dependencies moved q).2
      = { q with dependencies := q.dependencies.map (moved_from moved) }
    ∧ (p.dependencies.map (moved_from moved)).length = p.dependencies.length
    ∧ (q.dependencies.map (moved_from moved)).length = q.dependencies.length := by
  simp [extract_dependencies, extract_dependencies_policy_lvalue, derived_cast,
    System.dispatch_extract_dependencies,
    execute_with_dependencies.dispatch_extract_dependencies,
    execute_with_allocator_and_dependencies.dispatch_extract_dependencies,
    moved_from_each_eq_map]

/-! ## The allocator across rebinding and stream attachment -/

/-- C7: for an allocator-carrying policy `q`, every capture rule, every argument list, every
tuple and every stream, the policy returned by `rebind_after` in each of its three forms and
the policy returned by `on` report the allocator of `q`, and `q` itself still reports it
after each of these calls. -/
theorem get_allocator_preserved [Inhabited σ] (rule : CaptureRule α) (nonowning : S → α)
    (moved : α → α) (q : execute_with_allocator_and_dependencies A σ α)
    (args : List (Arg α)) (T : List (Dep α)) (s : S) :
    (q.rebind_after rule args).1.dispatch_get_allocator = q.dispatch_get_allocator
    ∧ (q.rebind_after_lvalue_tuple rule T).1.dispatch_get_allocator = q.dispatch_get_allocator
    ∧ (q.rebind_after_rvalue_tuple rule T).1.dispatch_get_allocator = q.dispatch_get_allocator
    ∧ (q.on_stream nonowning moved s).1.dispatch_get_allocator = q.dispatch_get_allocator
    ∧ (q.rebind_after rule args).2.dispatch_get_allocator = q.dispatch_get_allocator
    ∧ (q.rebind_after_lvalue_tuple rule T).2.dispatch_get_allocator = q.dispatch_get_allocator
    ∧ (q.rebind_after_rvalue_tuple rule T).2.dispatch_get_allocator = q.dispatch_get_allocator
    ∧ (q.on_stream nonowning moved s).2.dispatch_get_allocator = q.dispatch_get_allocator := by
  simp [execute_with_allocator_and_dependencies.dispatch_get_allocator,
    rebind_after_result_alloc, rebind_after_receiver_alloc,
    execute_with_allocator_and_dependencies.rebind_after_lvalue_tuple,
    execute_with_allocator_and_dependencies.rebind_after_rvalue_tuple,
    execute_with_allocator_and_dependencies.on_stream,
    execute_with_allocator_and_dependencies.ctor_pack,
    execute_with_allocator_and_dependencies.ctor_tuple]

/-! ## Capture of sequences -/

/-- C10: for a policy of either kind, every capture rule, every argument list and every
tuple, `rebind_after` in each of its three forms leaves the receiver as it was, so that
extracting from the receiver afterwards still returns its list, and the allocator variant
still reports its allocator. -/
theorem rebind_after_leaves_receiver [Inhabited σ] (rule : CaptureRule α) (moved : α → α)
    (p : execute_with_dependencies σ α) (q : execute_with_allocator_and_dependencies A σ α)
    (args : List (Arg α)) (T : List (Dep α)) :
    (p.rebind_after rule args).2 = p
    ∧ (p.rebind_after_lvalue_tuple rule T).2 = p
    ∧ (p.rebind_after_rvalue_tuple rule T).2 = p
    ∧ (execute_with_dependencies.dispatch_extract_dependencies moved
        (p.rebind_after rule args).2).1 = p.dependencies
    ∧ (execute_with_dependencies.dispatch_extract_dependencies moved
        (p.rebind_after_lvalue_tuple rule T).2).1 = p.dependencies
    ∧ (execute_with_dependencies.dispatch_extract_dependencies moved
        (p.rebind_after_rvalue_tuple rule T).2).1 = p.dependencies
    ∧ (q.rebind_after rule args).2 = q
    ∧ (q.rebind_after_lvalue_tuple rule T).2 = q
    ∧ (q.rebind_after_rvalue_tuple rule T).2 = q
    ∧ (execute_with_allocator_and_dependencies.dispatch_extract_dependencies moved
        (q.rebind_after rule args).2).1 = q.dependencies
    ∧ (execute_with_allocator_and_dependencies.dispatch_extract_dependencies moved
        (q.rebind_after_lvalue_tuple rule T).2).1 = q.dependencies
    ∧ (execute_with_allocator_and_dependencies.dispatch_extract_dependencies moved
        (q.rebind_after_rvalue_tuple rule T).2).1 = q.dependencies
    ∧ (q.rebind_after rule args).2.dispatch_get_allocator = q.dispatch_get_allocator
    ∧ (q.rebind_after_lvalue_tuple rule T).2.dispatch_get_allocator = q.dispatch_get_allocator
    ∧ (q.rebind_after_rvalue_tuple rule T).2.dispatch_get_allocator
        = q.dispatch_get_allocator := by
  simp [rebind_after_receiver, rebind_after_receiver_alloc,
    execute_with_dependencies.rebind_after_lvalue_tuple,
    execute_with_dependencies.rebind_after_rvalue_tuple,
    execute_with_dependencies.dispatch_extract_dependencies,
    execute_with_allocator_and_dependencies.rebind_after_lvalue_tuple,
    execute_with_allocator_and_dependencies.rebind_after_rvalue_tuple,
    execute_with_allocator_and_dependencies.dispatch_extract_dependencies]

/-! ## Stream precedence and attachment order -/

/-- C11: let the scan of the backend return the stream of the first stream-bearing entry of
a list and the sentinel when no entry bears one, and let the non-owning wrap of a stream
bear that stream. Then for a policy `p` of either kind, whatever its list bears, the stream
of `p.on(s1).on(s2)` is `s2` and the stream of `p.on(s1)` is `s1`; for a policy whose list
bears no stream the result is the sentinel. -/
theorem get_raw_stream_newest_wins [Inhabited σ] (stream_of : Dep α → Option S)
    (sentinel : S) (nonowning : S → α) (moved : α → α)
    (p p0 : execute_with_dependencies σ α)
    (q q0 : execute_with_allocator_and_dependencies A σ α) (s1 s2 : S)
    (hwrap : ∀ s, stream_of (Dep.atom (nonowning s)) = some s)
    (hp0 : ∀ d ∈ p0.dependencies, stream_of d = none)
    (hq0 : ∀ d ∈ q0.dependencies, stream_of d = none) :
    ((p.on_stream nonowning moved s1).1.on_stream nonowning moved s2).1.dispatch_get_raw_stream
        (get_raw_stream stream_of sentinel) = s2
    ∧ (p.on_stream nonowning moved s1).1.dispatch_get_raw_stream
        (get_raw_stream stream_of sentinel) = s1
    ∧ p0.dispatch_get_raw_stream (get_raw_stream stream_of sentinel) = sentinel
    ∧ ((q.on_stream nonowning moved s1).1.on_stream nonowning moved s2).1.dispatch_get_raw_stream
        (get_raw_stream stream_of sentinel) = s2
    ∧ (q.on_stream nonowning moved s1).1.dispatch_get_raw_stream
        (get_raw_stream stream_of sentinel) = s1
    ∧ q0.dispatch_get_raw_stream (get_raw_stream stream_of sentinel) = sentinel := by
  refine ⟨?_, ?_, ?_, ?_, ?_, ?_⟩
  · simp [execute_with_dependencies.dispatch_get_raw_stream,
      execute_with_dependencies.on_stream, execute_with_dependencies.ctor_tuple,
      Dep.elements, tuple_cat, make_tuple, get_raw_stream, hwrap]
  · simp [execute_with_dependencies.dispatch_get_raw_stream,
      execute_with_dependencies.on_stream, execute_with_dependencies.ctor_tuple,
      Dep.elements, tuple_cat, make_tuple, get_raw_stream, hwrap]
  · exact get_raw_stream_of_none stream_of sentinel p0.dependencies hp0
  · simp [execute_with_allocator_and_dependencies.dispatch_get_raw_stream,
      execute_with_allocator_and_dependencies.on_stream,
      execute_with_allocator_and_dependencies.ctor_tuple,
      Dep.elements, tuple_cat, make_tuple, get_raw_stream, hwrap]
  · simp [execute_with_allocator_and_dependencies.dispatch_get_raw_stream,
      execute_with_allocator_and_dependencies.on_stream,
      execute_with_allocator_and_dependencies.ctor_tuple,
      Dep.elements, tuple_cat, make_tuple, get_raw_stream, hwrap]
  · exact get_raw_stream_of_none stream_of sentinel q0.dependencies hq0

/-- C11 at the sample backend with sentinel `0`: a policy that already bears the older stream
`5` reports `2` after `on(1).on(2)` and `1` after `on(1)`; a policy whose only dependency
bears no stream reports the sentinel. -/
theorem get_raw_stream_newest_wins_witness :
    (((execute_with_dependencies.ctor_pack [Dep.atom (some 5)] :
          execute_with_dependencies Unit (Option Nat)).on_stream some (fun _ => none)
        1).1.on_stream some (fun _ => none) 2).1.dispatch_get_raw_stream
        (get_raw_stream sample_stream_of 0) = 2
    ∧ ((execute_with_dependencies.ctor_pack [Dep.atom (some 5)] :
          execute_with_dependencies Unit (Option Nat)).on_stream some (fun _ => none)
        1).1.dispatch_get_raw_stream (get_raw_stream sample_stream_of 0) = 1
    ∧ (execute_with_dependencies.ctor_pack [Dep.atom none] :
          execute_with_dependencies Unit (Option Nat)).dispatch_get_raw_stream
        (get_raw_stream sample_stream_of 0) = 0 :=
  ⟨(get_raw_stream_newest_wins sample_stream_of 0 some (fun _ => none)
      (execute_with_dependencies.ctor_pack [Dep.atom (some 5)] :
        execute_with_dependencies Unit (Option Nat))
      (execute_with_dependencies.ctor_pack [Dep.atom none] :
        execute_with_dependencies Unit (Option Nat))
      (execute_with_allocator_and_dependencies.ctor_pack () [] :
        execute_with_allocator_and_dependencies Unit Unit (Option Nat))
      (execute_with_allocator_and_dependencies.ctor_pack () [] :
        execute_with_allocator_and_dependencies Unit Unit (Option Nat))
      1 2 (fun _ => rfl)
      (by simp [execute_with_dependencies.ctor_pack, sample_stream_of])
      (by simp [execute_with_allocator_and_dependencies.ctor_pack])).1,
   (get_raw_stream_newest_wins sample_stream_of 0 some (fun _ => none)
      (execute_with_dependencies.ctor_pack [Dep.atom (some 5)] :
        execute_with_dependencies Unit (Option Nat))
      (execute_with_dependencies.ctor_pack [Dep.atom none] :
        execute_with_dependencies Unit (Option Nat))
      (execute_with_allocator_and_dependencies.ctor_pack () [] :
        execute_with_allocator_and_dependencies Unit Unit (Option Nat))
      (execute_with_allocator_and_dependencies.ctor_pack () [] :
        execute_with_allocator_and_dependencies Unit Unit (Option Nat))
      1 2 (fun _ => rfl)
      (by simp [execute_with_dependencies.ctor_pack, sample_stream_of])
      (by simp [execute_with_allocator_and_dependencies.ctor_pack])).2.1,
   (get_raw_stream_newest_wins sample_stream_of 0 some (fun _ => none)
      (execute_with_dependencies.ctor_pack [Dep.atom (some 5)] :
        execute_with_dependencies Unit (Option Nat))
      (execute_with_dependencies.ctor_pack [Dep.atom none] :
        execute_with_dependencies Unit (Option Nat))
      (execute_with_allocator_and_dependencies.ctor_pack () [] :
        execute_with_allocator_and_dependencies Unit Unit (Option Nat))
      (execute_with_allocator_and_dependencies.ctor_pack () [] :
        execute_with_allocator_and_dependencies Unit Unit (Option Nat))
      1 2 (fun _ => rfl)
      (by simp [execute_with_dependencies.ctor_pack, sample_stream_of])
      (by simp [execute_with_allocator_and_dependencies.ctor_pack])).2.2.1⟩

/-- C12: for a policy of either kind holding the list `L` and streams `s1, ..., sk` attached
in that order by `p.on(s1).on(s2)...on(sk)`, the resulting list is
`[wrap(sk), ..., wrap(s1)] ++ L`: of length `k + |L|`, newest first, `L` in its order; it is
also what extraction from the resulting policy returns. -/
theorem on_streams_newest_first [Inhabited σ] (nonowning : S → α) (moved : α → α)
    (p : execute_with_dependencies σ α) (q : execute_with_allocator_and_dependencies A σ α)
    (ss : List S) :
    (p.on_streams nonowning moved ss).dependencies
      = ss.reverse.map (fun s => Dep.atom (nonowning s)) ++ p.dependencies
    ∧ (execute_with_dependencies.dispatch_extract_dependencies moved
        (p.on_streams nonowning moved ss)).1
      = ss.reverse.map (fun s => Dep.atom (nonowning s)) ++ p.dependencies
    ∧ (p.on_streams nonowning moved ss).dependencies.length
      = ss.length + p.dependencies.length
    ∧ (q.on_streams nonowning moved ss).dependencies
      = ss.reverse.map (fun s => Dep.atom (nonowning s)) ++ q.dependencies
    ∧ (execute_with_allocator_and_dependencies.dispatch_extract_dependencies moved
        (q.on_streams nonowning moved ss)).1
      = ss.reverse.map (fun s => Dep.atom (nonowning s)) ++ q.dependencies
    ∧ (q.on_streams nonowning moved ss).dependencies.length
      = ss.length + q.dependencies.length := by
  have hp := dependencies_on_streams nonowning moved ss p
  have hq := dependencies_on_streams_alloc nonowning moved ss q
  refine ⟨hp, ?_, ?_, hq, ?_, ?_⟩
  · simpa [execute_with_dependencies.dispatch_extract_dependencies] using hp
  · rw [hp]
    simp
  · simpa [execute_with_allocator_and_dependencies.dispatch_extract_dependencies] using hq
  · rw [hq]
    simp

/-! ## Sequences of calls: the state of the list, and the two variants side by side -/

/-- C13 fails as stated: a policy constructed with the single dependency `7`, of a type whose
moved-from state is `0`, holds the list `(0)` after one extraction, which is neither the list
it was constructed with nor the empty list. -/
theorem run_extract_neither_full_nor_empty :
    (execute_with_dependencies.run sample_env [Op.extract]
        (execute_with_dependencies.fresh (execute_with_dependencies.ctor_pack [Dep.atom 7] :
          execute_with_dependencies Unit Nat))).1.constructed = [Dep.atom 7]
    ∧ (execute_with_dependencies.run sample_env [Op.extract]
        (execute_with_dependencies.fresh (execute_with_dependencies.ctor_pack [Dep.atom 7] :
          execute_with_dependencies Unit Nat))).1.policy.dependencies = [Dep.atom 0]
    ∧ (execute_with_dependencies.run sample_env [Op.extract]
        (execute_with_dependencies.fresh (execute_with_dependencies.ctor_pack [Dep.atom 7] :
          execute_with_dependencies Unit Nat))).1.policy.dependencies ≠ [Dep.atom 7]
    ∧ (execute_with_dependencies.run sample_env [Op.extract]
        (execute_with_dependencies.fresh (execute_with_dependencies.ctor_pack [Dep.atom 7] :
          execute_with_dependencies Unit Nat))).1.policy.dependencies ≠ [] := by
  simp [execute_with_dependencies.run, execute_with_dependencies.step,
    execute_with_dependencies.fresh, execute_with_dependencies.ctor_pack,
    execute_with_dependencies.dispatch_extract_dependencies, sample_env, moved_from_each,
    moved_from]

/-- C13, amended: in every state reached from a constructed policy of either kind by a
sequence of the public operations (`on`, `rebind_after` in its three forms, `get_allocator`,
`get_raw_stream`, extraction, each followed on the receiver or on the returned policy), the
list of the policy is the list it was constructed with in which every entry has been moved
from the same number of times: zero times, which is the list as constructed, or once for
every extraction and every `on` made on it. Its length is that of the constructed list, so no
operation leaves a proper part of it. -/
theorem run_list_moved_uniformly [Inhabited σ] (env : Env α S) (ops : List (Op α S))
    (aops : List (AllocOp α S)) (p : execute_with_dependencies σ α)
    (q : execute_with_allocator_and_dependencies A σ α) :
    (∃ k, (execute_with_dependencies.run env ops p.fresh).1.policy.dependencies
        = (execute_with_dependencies.run env ops p.fresh).1.constructed.map
            ((moved_from env.moved)^[k]))
    ∧ (execute_with_dependencies.run env ops p.fresh).1.policy.dependencies.length
        = (execute_with_dependencies.run env ops p.fresh).1.constructed.length
    ∧ (∃ k, (execute_with_allocator_and_dependencies.run env aops q.fresh).1.policy.dependencies
        = (execute_with_allocator_and_dependencies.run env aops q.fresh).1.constructed.map
            ((moved_from env.moved)^[k]))
    ∧ (execute_with_allocator_and_dependencies.run env aops
          q.fresh).1.policy.dependencies.length
        = (execute_with_allocator_and_dependencies.run env aops q.fresh).1.constructed.length
    ∧ p.fresh.constructed = p.dependencies
    ∧ q.fresh.constructed = q.dependencies := by
  have hp := run_moved_uniformly env ops p.fresh
    ⟨0, by simp [execute_with_dependencies.fresh]⟩
  have hq := run_alloc_moved_uniformly env aops q.fresh
    ⟨0, by simp [execute_with_allocator_and_dependencies.fresh]⟩
  refine ⟨hp, ?_, hq, ?_, rfl, rfl⟩
  · obtain ⟨k, hk⟩ := hp
    rw [hk, List.length_map]
  · obtain ⟨k, hk⟩ := hq
    rw [hk, List.length_map]

/-- C14: forgetting the allocator maps every operation of the allocator variant onto the
same operation of the plain decorator: the four constructors, and each call of `on`, of
`rebind_after` in its three forms, of `get_raw_stream` and of extraction, with the policy it
returns, the receiver it leaves and the stream or list it hands back. Hence for every
sequence of these calls the two variants reach policies holding the same list and hand back
the same streams and extracted lists. -/
theorem allocator_variant_refines_plain [Inhabited σ] (env : Env α S) (op : Op α S)
    (ops : List (Op α S)) (t : Tracked (execute_with_allocator_and_dependencies A σ α) α)
    (a : A) (super : σ) (D : List (Dep α)) :
    forget_allocator (execute_with_allocator_and_dependencies.ctor_pack a D :
        execute_with_allocator_and_dependencies A σ α) = execute_with_dependencies.ctor_pack D
    ∧ forget_allocator (execute_with_allocator_and_dependencies.ctor_tuple a (Dep.tuple D) :
        execute_with_allocator_and_dependencies A σ α)
      = execute_with_dependencies.ctor_tuple (Dep.tuple D)
    ∧ forget_allocator (execute_with_allocator_and_dependencies.ctor_super_pack super a D)
      = execute_with_dependencies.ctor_super_pack super D
    ∧ forget_allocator
        (execute_with_allocator_and_dependencies.ctor_super_tuple super a (Dep.tuple D))
      = execute_with_dependencies.ctor_super_tuple super (Dep.tuple D)
    ∧ (execute_with_allocator_and_dependencies.step_common env op t).1.forget_allocator
      = (execute_with_dependencies.step env op t.forget_allocator).1
    ∧ (execute_with_allocator_and_dependencies.step_common env op t).2
      = (execute_with_dependencies.step env op t.forget_allocator).2
    ∧ (execute_with_allocator_and_dependencies.run env (ops.map AllocOp.common)
        t).1.forget_allocator = (execute_with_dependencies.run env ops t.forget_allocator).1
    ∧ (execute_with_allocator_and_dependencies.run env (ops.map AllocOp.common)
        t).1.policy.dependencies
      = (execute_with_dependencies.run env ops t.forget_allocator).1.policy.dependencies
    ∧ (execute_with_allocator_and_dependencies.run env (ops.map AllocOp.common) t).2
      = (execute_with_dependencies.run env ops t.forget_allocator).2 := by
  have hs := forget_allocator_step_common env op t
  have hr := forget_allocator_run env ops t
  refine ⟨?_, ?_, ?_, ?_, hs.1, hs.2, hr.1, ?_, hr.2⟩
  · simp [forget_allocator, execute_with_allocator_and_dependencies.ctor_pack,
      execute_with_dependencies.ctor_pack]
  · simp [forget_allocator, execute_with_allocator_and_dependencies.ctor_tuple,
      execute_with_dependencies.ctor_tuple]
  · simp [forget_allocator, execute_with_allocator_and_dependencies.ctor_super_pack,
      execute_with_dependencies.ctor_super_pack]
  · simp [forget_allocator, execute_with_allocator_and_dependencies.ctor_super_tuple,
      execute_with_dependencies.ctor_super_tuple]
  · rw [← hr.1]
    rfl

/-- C15: for an allocator-carrying policy, `get_allocator` returns the same allocator after
any number of extractions, and after any sequence of the public operations altogether;
a call of `get_allocator` leaves the policy, and with it the prerequisite list, as it was. -/
theorem extraction_keeps_allocator [Inhabited σ] (env : Env α S) (moved : α → α) (n : Nat)
    (aops : List (AllocOp α S)) (q : execute_with_allocator_and_dependencies A σ α)
    (t : Tracked (execute_with_allocator_and_dependencies A σ α) α) :
    (execute_with_allocator_and_dependencies.dispatch_extract_dependencies moved
        q).2.dispatch_get_allocator = q.dispatch_get_allocator
    ∧ ((fun x => (execute_with_allocator_and_dependencies.dispatch_extract_dependencies
        moved x).2)^[n] q).dispatch_get_allocator = q.dispatch_get_allocator
    ∧ (execute_with_allocator_and_dependencies.run env aops t).1.policy.dispatch_get_allocator
      = t.policy.dispatch_get_allocator
    ∧ (execute_with_allocator_and_dependencies.step env AllocOp.get_allocator t).1 = t
    ∧ (execute_with_allocator_and_dependencies.step env AllocOp.get_allocator
        t).1.policy.dependencies = t.policy.dependencies := by
  refine ⟨?_, ?_, ?_, ?_, ?_⟩
  · simp [execute_with_allocator_and_dependencies.dispatch_get_allocator,
      execute_with_allocator_and_dependencies.dispatch_extract_dependencies]
  · simpa [execute_with_allocator_and_dependencies.dispatch_get_allocator] using
      extract_iterate_alloc moved n q
  · simpa [execute_with_allocator_and_dependencies.dispatch_get_allocator] using
      run_alloc_unchanged env aops t
  · simp [execute_with_allocator_and_dependencies.step]
  · simp [execute_with_allocator_and_dependencies.step]

end Claims

end thrust.detail
